import Mathlib

/-!
Verification of the JobSearcherPipeline ingestion engine.

Shallow embedding, translated from the TypeScript source:
- `src/src/types.ts`              — closed sum types of the data model
- `src/src/normalizer.ts`         — `classifyMode`, `hasNonRemoteLocation`,
                                    `normalizeTimestamp`
- `src/src/connectors/base.ts`    — `fetchWithRetry`, `batchFetch`
- `src/src/scoring/index.ts`      — `scoreFreshness`
- dedup engine (`checkDuplicate`) and db operations
  (`getJobByUrlHash`, `getJobByContentFingerprint`, `insertAlternateUrl`)
- pipeline orchestrator (`runPipeline` per-job processing) and the
  scheduler guard (`runPipelineGuarded`)

External collaborators (the JS `fetch` runtime, the `Date` parser, the
Intl formatter, the fuse.js fuzzy matcher) are passed in as explicit
parameters, as the spec treats them as environment.  Machine numbers are
modelled as `Int`/`Nat` (ids, milliseconds, points) and `Rat` where the
source divides (hours, days): the source uses JS doubles on values far
below 2^53, where the arithmetic is exact.
-/

namespace JSP

/-- From `src/src/types.ts`: `TitleBucket = "include" | "reject" | "maybe"`. -/
inductive TitleBucket where
  | include_
  | reject
  | maybe
deriving DecidableEq, Repr

/-- From `src/src/types.ts`: `WorkMode = "onsite" | "hybrid" | "remote" | "unknown"`. -/
inductive WorkMode where
  | onsite
  | hybrid
  | remote
  | unknown
deriving DecidableEq, Repr

/-- From `src/src/types.ts`: `ScoreBandKey`. -/
inductive ScoreBandKey where
  | topPriority
  | goodMatch
  | worthALook
deriving DecidableEq, Repr

/-- From `src/src/types.ts`: `TimestampConfidence = "high" | "medium" | "low"`. -/
inductive TimestampConfidence where
  | high
  | medium
  | low
deriving DecidableEq, Repr

/-- From `src/src/types.ts`: `JobStatus`. -/
inductive JobStatus where
  | active
  | applied
  | dismissed
  | expired
  | archived
deriving DecidableEq, Repr

/-- From `src/src/types.ts`: `DedupResult.matchMethod` variants. -/
inductive MatchMethod where
  | url_hash
  | fuzzy_key
  | content_fingerprint
deriving DecidableEq, Repr

/-! ### String helpers

JS `String.prototype.includes` (substring containment).  We model it as
an executable Bool over the character lists of the strings. -/

/-- Test `prefixAt sub s`: true when `sub` is a prefix of `s` (char lists). -/
def prefixAt : List Char → List Char → Bool
  | [], _ => true
  | _ :: _, [] => false
  | a :: as, b :: bs => a = b && prefixAt as bs

/-- Test `containsSub s sub`: `sub` occurs in `s` as a contiguous run.
Matches JS `s.includes(sub)`: the empty needle always matches. -/
def containsSub : List Char → List Char → Bool
  | [], sub => prefixAt sub []
  | c :: rest, sub => prefixAt sub (c :: rest) || containsSub rest sub

/-- JS `s.includes(sub)`. -/
def jsIncludes (s sub : String) : Bool :=
  containsSub s.data sub.data

/-- JS `s.toLowerCase()` on the ASCII range the config keywords and city
names use (character-list map, so that closed theorems evaluate in the
kernel). -/
def jsToLower (s : String) : String :=
  ⟨s.data.map Char.toLower⟩

/-- JS `s.trim()`: strip leading and trailing whitespace. -/
def jsTrim (s : String) : String :=
  ⟨(((s.data.dropWhile Char.isWhitespace).reverse).dropWhile Char.isWhitespace).reverse⟩

end JSP

namespace JSP.Normalizer

/-! ### Work-mode classification — `src/src/normalizer.ts` lines 107–153.

`AppConfig` fields used by `classifyMode`: the three keyword lists of
`config.modes.modes` and the location tiers of `config.locations.tiers`
(an ordered object, modelled as an association list). -/

/-- One location tier: `{label, points, cities[], aliases[]}` (label unused here). -/
structure Tier where
  points : Int
  cities : List String
  aliases : List String
deriving Repr

/-- The keyword lists of `config.modes.modes.{remote,onsite,hybrid}.keywords`. -/
structure ModeKeywords where
  remoteKeywords : List String
  onsiteKeywords : List String
  hybridKeywords : List String
deriving Repr

/-- Embeds `hasNonRemoteLocation(locationRaw, config)` from `src/src/normalizer.ts`
lines 137–153: true when the lowercased location matches a city or alias
of any tier other than `L5` (the remote tier); empty/blank locations never match. -/
def hasNonRemoteLocation (tiers : List (String × Tier)) (locationRaw : String) : Bool :=
  let lower := jsToLower locationRaw
  if jsTrim lower = "" then false
  else
    tiers.any fun kt =>
      kt.1 ≠ "L5" &&
        (kt.2.cities.any (fun city => jsIncludes lower (jsToLower city)) ||
          kt.2.aliases.any (fun al => jsIncludes lower (jsToLower al)))

/-- The combined lowercased search text `(text + " " + locationRaw).toLowerCase()`. -/
def modeCombined (text locationRaw : String) : String :=
  jsToLower (text ++ " " ++ locationRaw)

/-- Embeds `keywords.some(kw => combined.includes(kw.toLowerCase()))`. -/
def hasKeyword (keywords : List String) (combined : String) : Bool :=
  keywords.any fun kw => jsIncludes combined (jsToLower kw)

/-- Embeds `classifyMode(text, locationRaw, config)` from `src/src/normalizer.ts`
lines 107–135 (the copy with the remote+city rule, which §4.4 of the spec
designates as normative; a second copy at lines 393–420 omits the
`hasSpecificLocation` disjunct). -/
def classifyMode (mk : ModeKeywords) (tiers : List (String × Tier))
    (text locationRaw : String) : WorkMode :=
  let combined := modeCombined text locationRaw
  let hasRemoteKeyword := hasKeyword mk.remoteKeywords combined
  let hasOnsiteKeyword := hasKeyword mk.onsiteKeywords combined
  let hasHybridKeyword := hasKeyword mk.hybridKeywords combined
  let hasSpecificLocation := hasNonRemoteLocation tiers locationRaw
  if hasHybridKeyword then .hybrid
  else if hasRemoteKeyword && hasSpecificLocation then .hybrid
  else if hasRemoteKeyword && hasOnsiteKeyword then .hybrid
  else if hasRemoteKeyword then .remote
  else if hasOnsiteKeyword then .onsite
  else .unknown

/-! ### Timestamp normalization — `src/src/normalizer.ts` lines 164–219.

`new Date(postedAt)` (the JS date parser) and the `America/Toronto`
Intl formatting are environment: they are passed in as `parseDate`
(returning epoch milliseconds on success) and `toTorontoIso`. -/

/-- The result shape `{isoString, confidence}`. -/
structure TimestampResult where
  isoString : Option String
  confidence : TimestampConfidence
deriving DecidableEq, Repr

/-- Embeds `normalizeTimestamp(postedAt)`: null input or an unparseable string
yields `{null, low}`; any successful parse is formatted to Toronto
wall-clock time and marked `high`.  (No code path yields `medium`.) -/
def normalizeTimestamp (parseDate : String → Option Int) (toTorontoIso : Int → String) :
    Option String → TimestampResult
  | none => ⟨none, .low⟩
  | some s =>
    match parseDate s with
    | none => ⟨none, .low⟩
    | some t => ⟨some (toTorontoIso t), .high⟩

/-- Models the JS runtime `Date` parser on the sample strings used in the
theorems below: an ISO string parses to its epoch milliseconds; relative
phrases such as "3 days ago" are not a format `new Date` accepts and
yield an invalid date. -/
def dateParseSample : String → Option Int := fun s =>
  if s = "2026-02-16T12:00:00Z" then some 1771243200000 else none

/-- Models the Intl Toronto formatter on the sample instant above. -/
def torontoIsoSample : Int → String := fun _ => "2026-02-16T07:00:00-05:00"

end JSP.Normalizer

namespace JSP.Connector

/-! ### Rate-limited fetcher — `src/src/connectors/base.ts` lines 21–139.

The JS `fetch` runtime is environment: attempt `n` of the retry loop is
given by `env n`, either an HTTP response (status, optional numeric
`Retry-After` header in seconds, and whether `response.json()` resolves)
or a thrown network/timeout error.  The embedding returns the observable
outcome together with the list of `sleep` waits performed, in order. -/

/-- What one loop iteration observes from the network. -/
inductive AttemptEvent where
  | response (status : Nat) (retryAfterSec : Option Nat) (jsonOk : Bool)
  | netFail
deriving DecidableEq, Repr

/-- The observable part of `FetchResult`: `success`, `rateLimited`,
`statusCode` (absent on the loop-exhausted return at line 132), whether
`data` is non-null, and the waits that were slept. -/
structure FetchOutcome where
  success : Bool
  rateLimited : Bool
  statusCode : Option Nat
  hasData : Bool
  sleeps : List Nat
deriving DecidableEq, Repr

/-- The retry loop body of `fetchWithRetry`, from attempt `attempt` with the
tracked `rateLimited` variable equal to `rl`.  Mirrors, in order: the 429
branch (lines 43–67), the 5xx branch (69–89), the `!response.ok` branch
(91–100), the `response.json()` success return (103–113, which returns the
literal `rateLimited: false`), and the catch branch (114–126) that backs
off and continues or falls through to the final return (132–138).
The loop re-enters only while `attempt < maxRetries`, so from attempt 0
it runs at most `maxRetries + 1` iterations; `fuel = maxRetries + 1 -
attempt` is structural fuel that never runs out on a reachable call (the
`fuel = 0` fallback is the loop-exhausted return and is never taken from
`fetchWithRetry`). -/
def fetchLoop (env : Nat → AttemptEvent) (maxRetries backoffStartMs : Nat) :
    (fuel attempt : Nat) → (rl : Bool) → FetchOutcome
  | 0, _, rl => ⟨false, rl, none, false, []⟩
  | fuel + 1, attempt, rl =>
    let catchPath : FetchOutcome :=
      if attempt < maxRetries then
        let rest := fetchLoop env maxRetries backoffStartMs fuel (attempt + 1) rl
        { rest with sleeps := backoffStartMs * 2 ^ attempt :: rest.sleeps }
      else
        ⟨false, rl, none, false, []⟩
    match env attempt with
    | .netFail => catchPath
    | .response status retryAfterSec jsonOk =>
      if status = 429 then
        let waitMs :=
          match retryAfterSec with
          | some sec => sec * 1000
          | none => backoffStartMs * 2 ^ attempt
        if attempt < maxRetries then
          let rest := fetchLoop env maxRetries backoffStartMs fuel (attempt + 1) true
          { rest with sleeps := waitMs :: rest.sleeps }
        else
          ⟨false, true, some 429, false, []⟩
      else if 500 ≤ status then
        if attempt < maxRetries then
          let rest := fetchLoop env maxRetries backoffStartMs fuel (attempt + 1) rl
          { rest with sleeps := backoffStartMs * 2 ^ attempt :: rest.sleeps }
        else
          ⟨false, false, some status, false, []⟩
      else if ¬(200 ≤ status ∧ status ≤ 299) then
        ⟨false, false, some status, false, []⟩
      else if jsonOk then
        ⟨true, false, some status, true, []⟩
      else
        catchPath

/-- Embeds `fetchWithRetry(options)`: the loop starts at attempt 0 with the
tracked `rateLimited` variable false. -/
def fetchWithRetry (env : Nat → AttemptEvent) (maxRetries backoffStartMs : Nat) :
    FetchOutcome :=
  fetchLoop env maxRetries backoffStartMs (maxRetries + 1) 0 false

/-- The environment of spec scenario 6: attempt 0 sees HTTP 429 with
`Retry-After: 2`, every later attempt sees HTTP 200 with a good body. -/
def env429then200 : Nat → AttemptEvent := fun n =>
  if n = 0 then .response 429 (some 2) true else .response 200 none true

/-! ### Batch fetcher — `src/src/connectors/base.ts` lines 148–186.

`fetchFn` may reject; a rejected item is caught, logged and *skipped*
(`results.push` only runs on resolution).  Rejection is modelled with
`Except`.  The sleeps between items and batches do not affect the result
list and are not modelled.  The outer loop advances by `batchSize`; with
`batchSize = 0` the JS loop never terminates, so the model uses
`items.length` as fuel, which is exact for every `batchSize ≥ 1`. -/

/-- One slice: `try { results.push(await fetchFn(item)) } catch { log }`
for each item of the slice, in order. -/
def sliceResults (fetchFn : α → Except ε β) (slice : List α) : List β :=
  slice.filterMap fun a => (fetchFn a).toOption

/-- The batch loop over `items`, slicing `batchSize` at a time. -/
def batchLoop (batchSize : Nat) (fetchFn : α → Except ε β) :
    Nat → List α → List β
  | _, [] => []
  | 0, _ => []
  | fuel + 1, items =>
    sliceResults fetchFn (items.take batchSize) ++
      batchLoop batchSize fetchFn fuel (items.drop batchSize)

/-- Embeds `batchFetch` — the returned `results`
array. -/
def batchFetch (batchSize : Nat) (fetchFn : α → Except ε β) (items : List α) :
    List β :=
  batchLoop batchSize fetchFn items.length items

end JSP.Connector

namespace JSP.Scoring

/-! ### Freshness scoring — `src/src/scoring/index.ts` lines 29–66. -/

/-- One bracket of `config.scoring.freshness.brackets`. -/
structure FreshBracket where
  maxHours : Option Int
  points : Int
deriving DecidableEq, Repr

/-- Embeds `config.scoring.freshness`. -/
structure FreshnessConfig where
  brackets : List FreshBracket
  lowConfidenceCap : Int
deriving Repr

/-- The sort comparator of lines 44–48 as a before-or-equal test:
`null` sorts after everything; numeric bounds sort ascending.  (For two
`null` bounds the JS comparator is inconsistent and the engine order is
implementation-defined; a stable insertion sort with this test picks one
of the permitted orders.) -/
def bracketBefore (a b : FreshBracket) : Bool :=
  match a.maxHours, b.maxHours with
  | none, _ => false
  | _, none => true
  | some x, some y => x ≤ y

/-- Stable insertion into a sorted bracket list. -/
def insertBracket (x : FreshBracket) : List FreshBracket → List FreshBracket
  | [] => [x]
  | y :: ys => if bracketBefore y x then y :: insertBracket x ys else x :: y :: ys

/-- Embeds the bracket sort `[...brackets].sort(comparator)` of lines 44–48. -/
def sortBrackets (l : List FreshBracket) : List FreshBracket :=
  l.foldr insertBracket []

/-- The bracket loop of lines 50–55: the first bracket whose bound is
`null` or at least `hoursAgo` supplies the points; otherwise 0. -/
def pickPoints (hoursAgo : Rat) : List FreshBracket → Int
  | [] => 0
  | b :: rest =>
    match b.maxHours with
    | none => b.points
    | some mh => if hoursAgo ≤ (mh : Rat) then b.points else pickPoints hoursAgo rest

/-- Embeds `scoreFreshness(postedAt, firstSeenAt, confidence, config)` with the
clock `now`; timestamps in epoch milliseconds.  `hoursAgo` may be
negative for future-dated postings, exactly as in the source. -/
def scoreFreshness (postedAt : Option Int) (firstSeenAt : Int)
    (confidence : TimestampConfidence) (fc : FreshnessConfig) (now : Int) : Int :=
  let referenceTime := postedAt.getD firstSeenAt
  let hoursAgo : Rat := ((now - referenceTime : Int) : Rat) / 3600000
  let pts := pickPoints hoursAgo (sortBrackets fc.brackets)
  if confidence = .low ∧ fc.lowConfidenceCap < pts then fc.lowConfidenceCap else pts

/-- The bracket table of spec scenario 4:
`[{24h,100},{48h,80},{null,0}]` with `lowConfidenceCap = 50`. -/
def scenarioFreshConfig : FreshnessConfig :=
  ⟨[⟨some 24, 100⟩, ⟨some 48, 80⟩, ⟨none, 0⟩], 50⟩

end JSP.Scoring

namespace JSP.Dedup

/-! ### Dedup engine and persistence lookups.

From the dedup module (`checkDuplicate`, `checkFuzzyDuplicate`) and
`src/src/index.ts` (`getJobByUrlHash` lines 251–258,
`getJobByContentFingerprint` lines 260–275).  The `jobs_canonical` table
is a list of rows in rowid order; timestamps are epoch milliseconds. -/

/-- The columns of `jobs_canonical` the dedup passes read. -/
structure DbJob where
  id : Nat
  urlHash : String
  contentFingerprint : String
  status : JobStatus
  firstSeenAt : Int
  postedAt : Option Int
  source : String
deriving DecidableEq, Repr

/-- Embeds `DedupResult` from `src/src/types.ts`; optional fields default to
absent/false. -/
structure DedupResult where
  isDuplicate : Bool
  matchMethod : Option MatchMethod := none
  existingJobId : Option Nat := none
  isPotentialDuplicate : Bool := false
  isRepost : Bool := false
  originalPostDate : Option Int := none
deriving DecidableEq, Repr

/-- The negative result `{ isDuplicate: false }`. -/
def noDup : DedupResult := { isDuplicate := false }

/-- Embeds `getJobByUrlHash`: `SELECT id FROM jobs_canonical WHERE url_hash = ?`
with `.get` — the first matching row, with **no** status filter. -/
def getJobByUrlHash (db : List DbJob) (h : String) : Option DbJob :=
  db.find? fun r => r.urlHash = h

/-- Embeds `getJobByContentFingerprint`: fingerprint match restricted to
`status = "active"`, `ORDER BY first_seen_at ASC LIMIT 1` — the earliest
active match (ties resolved to the first row, one of the orders SQLite
permits). -/
def getJobByContentFingerprint (db : List DbJob) (fp : String) : Option DbJob :=
  (db.filter fun r => r.contentFingerprint = fp ∧ r.status = .active).foldl
    (fun acc r =>
      match acc with
      | none => some r
      | some m => if r.firstSeenAt < m.firstSeenAt then some r else some m)
    none

/-- The canonical-job fields read and written by dedup and the per-job
pipeline step (subset of `CanonicalJob` from `src/src/types.ts`). -/
structure CJob where
  source : String
  url : String
  urlHash : String
  contentFingerprint : String
  titleBucket : TitleBucket
  isReposted : Bool
  originalPostDate : Option Int
  score : Int
  scoreFreshness : Int
  scoreLocation : Int
  scoreMode : Int
  scoreBand : ScoreBandKey
  isBackfill : Bool
deriving DecidableEq, Repr

/-- Embeds `checkDuplicate(job)`: three passes with short-circuit.  Pass 2
(`checkFuzzyDuplicate`, fuse.js over the in-memory cache) is environment
and passed in as `fuzzy`; its result is returned whenever it reports a
duplicate.  Pass 3 runs only when `job.contentFingerprint` is truthy
(non-empty) and applies the 7-day repost rule:
`daysSinceFirst = (now − first_seen_at) / 86400000`. -/
def checkDuplicate (fuzzy : CJob → DedupResult) (db : List DbJob) (now : Int)
    (job : CJob) : DedupResult :=
  match getJobByUrlHash db job.urlHash with
  | some urlMatch =>
    { isDuplicate := true, matchMethod := some .url_hash, existingJobId := some urlMatch.id }
  | none =>
    let fuzzyResult := fuzzy job
    if fuzzyResult.isDuplicate then fuzzyResult
    else if job.contentFingerprint ≠ "" then
      match getJobByContentFingerprint db job.contentFingerprint with
      | some fpMatch =>
        let daysSinceFirst : Rat := ((now - fpMatch.firstSeenAt : Int) : Rat) / 86400000
        if 7 < daysSinceFirst then
          { isDuplicate := false, matchMethod := some .content_fingerprint,
            existingJobId := some fpMatch.id, isRepost := true,
            originalPostDate := some (fpMatch.postedAt.getD fpMatch.firstSeenAt) }
        else
          { isDuplicate := true, matchMethod := some .content_fingerprint,
            existingJobId := some fpMatch.id }
      | none => noDup
    else noDup

/-- The empty fuzzy cache (`_fuseInstance = null`): `checkFuzzyDuplicate`
returns `{ isDuplicate: false }` for every job. -/
def fuzzyEmpty : CJob → DedupResult := fun _ => noDup

end JSP.Dedup

namespace JSP.Pipeline

open JSP.Dedup

/-- JS truthiness of the optional numeric `dedupResult.existingJobId`:
defined and non-zero.  (SQLite rowids start at 1, so the 0 case never
arises from the store.) -/
def jsTruthyId : Option Nat → Bool
  | some i => i ≠ 0
  | none => false

/-- Embeds `ScoreResult` from `src/src/types.ts`. -/
structure ScoreResult where
  total : Int
  freshness : Int
  location : Int
  mode : Int
  band : ScoreBandKey
deriving DecidableEq, Repr

/-- The observable effects of processing one raw job in the orchestrator
loop (`runPipeline`, per-job body): which counters were bumped, which
rows were written, and what was enqueued.  `altUrlInserted` carries
`(canonicalJobId, alternateUrl, alternateSource)`; `dupLinkInserted`
carries `(newId, existingJobId, method)`. -/
structure StepResult where
  rejected : Bool
  countedMaybe : Bool
  countedDuplicate : Bool
  altUrlInserted : Option (Nat × String × String)
  inserted : Option CJob
  dupLinkInserted : Option (Nat × Nat × Option MatchMethod)
  queuedForAnalysis : Bool
  queuedForAlert : Bool
deriving DecidableEq, Repr

/-- The per-raw-job body of `runPipeline` (orchestrator, lines 173–254),
after `normalizeJob` produced `job0`.  `checkDup` is the dedup engine,
`scoreJob` the scoring engine, `newId` the rowid `insertCanonicalJob`
returns.  Mirrors in order: the backfill flag assignment, the reject
short-circuit, the maybe counter, dedup, the alternate-URL insert guarded
by `canonical.source !== "greenhouse"`, the duplicate short-circuit (only
for non-potential duplicates), the repost marking, scoring, the canonical
insert, the potential-duplicate link, and the AI/alert enqueues. -/
def processJob (checkDup : CJob → DedupResult) (scoreJob : CJob → ScoreResult)
    (aiAnalysisMinScore : Int) (isBackfill : Bool) (newId : Nat) (job0 : CJob) :
    StepResult :=
  let job := { job0 with isBackfill := isBackfill }
  if job.titleBucket = .reject then
    { rejected := true, countedMaybe := false, countedDuplicate := false,
      altUrlInserted := none, inserted := none, dupLinkInserted := none,
      queuedForAnalysis := false, queuedForAlert := false }
  else
    let countedMaybe := job.titleBucket = .maybe
    let dedupResult := checkDup job
    let altUrlInserted :=
      if dedupResult.isDuplicate && jsTruthyId dedupResult.existingJobId &&
          job.source ≠ "greenhouse" then
        dedupResult.existingJobId.map fun i => (i, job.url, job.source)
      else none
    if dedupResult.isDuplicate && jsTruthyId dedupResult.existingJobId &&
        !dedupResult.isPotentialDuplicate then
      { rejected := false, countedMaybe, countedDuplicate := true,
        altUrlInserted, inserted := none, dupLinkInserted := none,
        queuedForAnalysis := false, queuedForAlert := false }
    else
      let job1 :=
        if dedupResult.isRepost then
          { job with isReposted := true, originalPostDate := dedupResult.originalPostDate }
        else job
      let sc := scoreJob job1
      let job2 :=
        { job1 with
          score := sc.total, scoreFreshness := sc.freshness,
          scoreLocation := sc.location, scoreMode := sc.mode,
          scoreBand := sc.band }
      { rejected := false, countedMaybe, countedDuplicate := false,
        altUrlInserted, inserted := some job2,
        dupLinkInserted :=
          if dedupResult.isPotentialDuplicate && jsTruthyId dedupResult.existingJobId then
            some (newId, dedupResult.existingJobId.getD 0, dedupResult.matchMethod)
          else none,
        queuedForAnalysis := decide (aiAnalysisMinScore ≤ sc.total) && !isBackfill,
        queuedForAlert :=
          (sc.band = .topPriority) && (job2.titleBucket = .include_) && !isBackfill }

/-! ### Alternate-URL persistence — `src/src/index.ts` lines 949–959 and
migration `0003_job_alternate_urls` (lines 1484–1500): `INSERT OR IGNORE`
against `UNIQUE INDEX idx_alternate_urls_unique (canonical_job_id,
alternate_source)`. -/

/-- One row of `job_alternate_urls`. -/
structure AltRow where
  canonicalJobId : Nat
  alternateUrl : String
  alternateSource : String
deriving DecidableEq, Repr

/-- Embeds `insertAlternateUrl`: the row is appended unless a row with the same
`(canonical_job_id, alternate_source)` key exists, in which case the
insert is ignored. -/
def insertAlternateUrl (tbl : List AltRow) (row : AltRow) : List AltRow :=
  if tbl.any (fun x => x.canonicalJobId = row.canonicalJobId ∧
      x.alternateSource = row.alternateSource) then tbl
  else tbl ++ [row]

/-- The unique-index invariant: no two rows share
`(canonical_job_id, alternate_source)`. -/
def altKeyUnique (tbl : List AltRow) : Prop :=
  tbl.Pairwise fun a b =>
    ¬(a.canonicalJobId = b.canonicalJobId ∧ a.alternateSource = b.alternateSource)

end JSP.Pipeline

namespace JSP.Scheduler

/-! ### Single-flight guard — scheduler module, `runPipelineGuarded`
(lines 21–41): a module-level boolean `_pipelineRunning` gates the
pipeline; re-entry returns `null` with a warning; the flag is restored in
a `finally`.  `runPipeline` itself is environment: it either resolves
with a result or rejects. -/

/-- The behaviour of the inner `runPipeline(config, opts)` call. -/
inductive RunOutcome (R E : Type) where
  | ok (r : R)
  | thrown (e : E)

/-- What one `runPipelineGuarded` call does: its outcome (`Except.error`
when the inner run rejected and the rejection propagated; `.ok none` when
the tick was skipped), whether the lock warning was logged, whether the
pipeline was invoked at all, and the value of `_pipelineRunning` after
the call returns. -/
structure GuardResult (R E : Type) where
  outcome : Except E (Option R)
  warned : Bool
  started : Bool
  lockAfter : Bool

/-- Embeds `runPipelineGuarded` given the current `_pipelineRunning` flag and the
the behaviour of the inner run.  There is no `await` between the flag test and the
flag set, so on the single-threaded event loop the test-and-set is atomic
and the pair models the whole call. -/
def runPipelineGuarded (lockBefore : Bool) (pipeline : RunOutcome R E) :
    GuardResult R E :=
  if lockBefore then
    { outcome := .ok none, warned := true, started := false, lockAfter := lockBefore }
  else
    match pipeline with
    | .ok r => { outcome := .ok (some r), warned := false, started := true, lockAfter := false }
    | .thrown e => { outcome := .error e, warned := false, started := true, lockAfter := false }

end JSP.Scheduler

namespace JSP.Fixtures

open JSP.Dedup JSP.Pipeline

/-! Concrete rows, jobs and stub engines used by the closed theorems. -/

/-- A trivial scoring stub (the scoring engine is irrelevant to the
dedup-path theorems). -/
def scoreZero : CJob → ScoreResult := fun _ => ⟨0, 0, 0, 0, .worthALook⟩

/-- A canonical row from source `lever`, active, first seen at epoch 0. -/
def origRow : DbJob :=
  ⟨1, "h1", "fp1", .active, 0, none, "lever"⟩

/-- A one-row `jobs_canonical` table holding `origRow`. -/
def dbOne : List DbJob := [origRow]

/-- A new job from source `lever` whose URL hash collides with `origRow`. -/
def newJobLever : CJob :=
  { source := "lever", url := "https://jobs.lever.co/acme/1", urlHash := "h1",
    contentFingerprint := "fpX", titleBucket := .include_, isReposted := false,
    originalPostDate := none, score := 0, scoreFreshness := 0, scoreLocation := 0,
    scoreMode := 0, scoreBand := .worthALook, isBackfill := false }

/-- An archived canonical row (status ≠ active). -/
def archivedRow : DbJob :=
  ⟨1, "hArch", "fpArch", .archived, 0, some 500, "lever"⟩

/-- A one-row table holding `archivedRow`. -/
def dbArch : List DbJob := [archivedRow]

/-- A job whose URL hash equals that of the archived row. -/
def jobSameUrl : CJob :=
  { source := "workable", url := "https://apply.workable.com/a/1", urlHash := "hArch",
    contentFingerprint := "zzz", titleBucket := .include_, isReposted := false,
    originalPostDate := none, score := 0, scoreFreshness := 0, scoreLocation := 0,
    scoreMode := 0, scoreBand := .worthALook, isBackfill := false }

/-- A job under a fresh URL whose content fingerprint equals that of the
archived row. -/
def jobSameFp : CJob :=
  { source := "workable", url := "https://apply.workable.com/a/2", urlHash := "hOther",
    contentFingerprint := "fpArch", titleBucket := .include_, isReposted := false,
    originalPostDate := none, score := 0, scoreFreshness := 0, scoreLocation := 0,
    scoreMode := 0, scoreBand := .worthALook, isBackfill := false }

/-- A job whose title bucket is `reject`. -/
def rejectJob : CJob :=
  { source := "lever", url := "https://jobs.lever.co/acme/9", urlHash := "h9",
    contentFingerprint := "fp9", titleBucket := .reject, isReposted := false,
    originalPostDate := none, score := 0, scoreFreshness := 0, scoreLocation := 0,
    scoreMode := 0, scoreBand := .worthALook, isBackfill := false }

/-- An active row for the repost theorems: first seen at epoch 0 with a
recorded `posted_at`. -/
def fpRow : DbJob :=
  ⟨3, "hFP", "fpShare", .active, 0, some 123, "lever"⟩

/-- A one-row table holding `fpRow`. -/
def dbFp : List DbJob := [fpRow]

/-- A job under a fresh URL sharing the content fingerprint of `fpRow`. -/
def jobFp : CJob :=
  { source := "workable", url := "https://apply.workable.com/a/3", urlHash := "hNew",
    contentFingerprint := "fpShare", titleBucket := .include_, isReposted := false,
    originalPostDate := none, score := 0, scoreFreshness := 0, scoreLocation := 0,
    scoreMode := 0, scoreBand := .worthALook, isBackfill := false }

end JSP.Fixtures

namespace JSP

open JSP.Normalizer JSP.Connector JSP.Scoring JSP.Dedup JSP.Pipeline JSP.Scheduler JSP.Fixtures

/-! ## Helper lemmas -/

/-- The batch loop with enough fuel collects, in order, the successful
results over the whole list. -/
theorem batchLoop_eq_filterMap {α β ε : Type} (batchSize : Nat) (hbs : 0 < batchSize)
    (fetchFn : α → Except ε β) :
    ∀ (fuel : Nat) (items : List α), items.length ≤ fuel →
      batchLoop batchSize fetchFn fuel items =
        items.filterMap fun a => (fetchFn a).toOption := by
  intro fuel
  induction fuel with
  | zero =>
    intro items hlen
    cases items with
    | nil => rfl
    | cons a as => simp at hlen
  | succ n ih =>
    intro items hlen
    cases items with
    | nil => rfl
    | cons a as =>
      have hdrop : ((a :: as).drop batchSize).length ≤ n := by
        have h1 : ((a :: as).drop batchSize).length = (a :: as).length - batchSize :=
          List.length_drop _ _
        have h2 : (a :: as).length = as.length + 1 := List.length_cons a as
        simp only [List.length_cons] at hlen
        omega
      calc batchLoop batchSize fetchFn (n + 1) (a :: as)
          = sliceResults fetchFn ((a :: as).take batchSize) ++
              batchLoop batchSize fetchFn n ((a :: as).drop batchSize) := rfl
        _ = ((a :: as).take batchSize).filterMap (fun x => (fetchFn x).toOption) ++
              ((a :: as).drop batchSize).filterMap (fun x => (fetchFn x).toOption) := by
            rw [ih _ hdrop]; rfl
        _ = (a :: as).filterMap fun x => (fetchFn x).toOption := by
            rw [← List.filterMap_append, List.take_append_drop]

/-! ## C1 — batchFetch result shape -/

/-- C1 (counterexample): with items `["A", "ERROR", "C"]` and a `fetchFn`
that rejects on `"ERROR"` (the scenario of the in-repo `verify-round3.ts`
scenario), `batchFetch` returns two entries for three inputs: the failing
entry of the failing item is omitted, not failure-marked, refuting "exactly one result
entry per input item". -/
theorem C1_counterexample :
    batchFetch 3 (fun s => if s = "ERROR" then Except.error "Boom" else Except.ok s)
        ["A", "ERROR", "C"] = ["A", "C"] ∧
      (batchFetch 3 (fun s => if s = "ERROR" then Except.error "Boom" else Except.ok s)
          ["A", "ERROR", "C"]).length ≠ (["A", "ERROR", "C"] : List String).length := by
  constructor
  · rfl
  · decide

/-- C1 (amended): for every positive batch size, every `fetchFn` and every
input list, `batchFetch` never throws and continues past rejecting items,
returning — in input order — exactly one entry per item whose `fetchFn`
resolves; items whose `fetchFn` rejects are logged and omitted from the
results. -/
theorem C1_batchFetch_skips_failures {α β ε : Type} (batchSize : Nat)
    (fetchFn : α → Except ε β) (items : List α) (hbs : 0 < batchSize) :
    batchFetch batchSize fetchFn items =
      items.filterMap fun a => (fetchFn a).toOption :=
  batchLoop_eq_filterMap batchSize hbs fetchFn items.length items le_rfl

/-- C1 (witness): the amended theorem applied at batch size 2 and a
three-item list whose middle item rejects. -/
theorem C1_witness :
    batchFetch 2 (fun n => if n = 1 then Except.error "e" else Except.ok (n * 10))
      [0, 1, 2] = [0, 20] := by
  rw [C1_batchFetch_skips_failures 2
    (fun n => if n = 1 then Except.error "e" else Except.ok (n * 10)) [0, 1, 2]
    (by decide)]
  decide

/-! ## C2 — 429 retry behaviour -/

/-- C2: a fetch whose first attempt returns HTTP 429 with `Retry-After: 2`
and whose second returns HTTP 200 performs exactly one retry after a
single 2000 ms wait and succeeds with `statusCode = 200` — but the
success return of `fetchWithRetry` carries the literal `rateLimited:
false` (base.ts line 110), ignoring the tracked `rateLimited` variable,
so the result is **not** marked `rateLimited = true` as scenario 6 of the
spec requires. -/
theorem C2_rate_limited_flag_dropped :
    fetchWithRetry env429then200 3 1000 =
      { success := true, rateLimited := false, statusCode := some 200,
        hasData := true, sleeps := [2000] } := by
  rfl


/-- Helper: the alternate-URL insert performed by the per-job step, as a
closed form. -/
theorem processJob_altUrl (checkDup : CJob → DedupResult) (scoreJob : CJob → ScoreResult)
    (aiMin : Int) (bf : Bool) (nid : Nat) (job : CJob) :
    (processJob checkDup scoreJob aiMin bf nid job).altUrlInserted =
      (if job.titleBucket = TitleBucket.reject then none
       else if (checkDup { job with isBackfill := bf }).isDuplicate &&
           jsTruthyId (checkDup { job with isBackfill := bf }).existingJobId &&
           decide (job.source ≠ "greenhouse") then
         (checkDup { job with isBackfill := bf }).existingJobId.map
           fun i => (i, job.url, job.source)
       else none) := by
  by_cases hrej : job.titleBucket = TitleBucket.reject
  · simp [processJob, hrej]
  · simp only [processJob]
    rw [if_neg hrej, if_neg hrej]
    rw [apply_ite StepResult.altUrlInserted]
    simp [ite_self]

/-- Helper: a truthy existing id is in particular present. -/
theorem jsTruthyId_isSome {o : Option Nat} (h : jsTruthyId o = true) : o.isSome = true := by
  cases o with
  | none => simp [jsTruthyId] at h
  | some i => rfl

/-! ## C3 — alternate-URL recording condition -/

/-- C3 (counterexample): a duplicate whose new source `"lever"` equals the
source of the matched original still gets an AlternateURL row recorded,
because the guard in the orchestrator compares the new source against the
literal `"greenhouse"`, not against the source of the original — refuting
"records an AlternateURL row exactly when the source of the new job
differs from the source of the original (matched) job". -/
theorem C3_counterexample :
    (processJob (checkDuplicate fuzzyEmpty dbOne 0) scoreZero 50 false 2
        newJobLever).altUrlInserted =
      some (origRow.id, newJobLever.url, newJobLever.source) ∧
      newJobLever.source = origRow.source := by
  constructor
  · rfl
  · rfl

/-- C3 (amended): the orchestrator records an AlternateURL row exactly
when the job survives the reject filter, dedup reports a duplicate with a
truthy existing id, and the **source of the new job is not the literal
`"greenhouse"`** — regardless of the source of the matched original; and the
`INSERT OR IGNORE` against the unique index keeps rows unique per
`(canonicalJobId, alternateSource)`. -/
theorem C3_alternate_url_condition :
    (∀ (checkDup : CJob → DedupResult) (scoreJob : CJob → ScoreResult)
        (aiMin : Int) (bf : Bool) (nid : Nat) (job : CJob),
      (processJob checkDup scoreJob aiMin bf nid job).altUrlInserted.isSome =
        (!decide (job.titleBucket = TitleBucket.reject) &&
          (checkDup { job with isBackfill := bf }).isDuplicate &&
          jsTruthyId (checkDup { job with isBackfill := bf }).existingJobId &&
          !decide (job.source = "greenhouse"))) ∧
    ∀ (tbl : List AltRow) (row : AltRow),
      altKeyUnique tbl → altKeyUnique (insertAlternateUrl tbl row) := by
  constructor
  · intro checkDup scoreJob aiMin bf nid job
    rw [processJob_altUrl]
    by_cases hrej : job.titleBucket = TitleBucket.reject
    · simp [hrej]
    · rw [if_neg hrej]
      set d := checkDup { job with isBackfill := bf } with hd
      by_cases h3 : job.source = "greenhouse"
      · simp [h3, hrej]
      · by_cases h2t : jsTruthyId d.existingJobId = true
        · have hs := jsTruthyId_isSome h2t
          by_cases h1 : d.isDuplicate = true
          · simp [h1, h2t, h3, hrej, hs]
          · have h1f : d.isDuplicate = false := by simpa using h1
            simp [h1f, h3, hrej]
        · have h2f : jsTruthyId d.existingJobId = false := by simpa using h2t
          simp [h2f, h3, hrej]
  · intro tbl row hA
    unfold insertAlternateUrl
    split
    · exact hA
    · next hany =>
      have h' : ∀ x ∈ tbl,
          ¬(x.canonicalJobId = row.canonicalJobId ∧ x.alternateSource = row.alternateSource) := by
        intro x hx hxx
        exact hany (List.any_eq_true.mpr ⟨x, hx, decide_eq_true hxx⟩)
      unfold altKeyUnique at hA ⊢
      rw [List.pairwise_append]
      refine ⟨hA, List.pairwise_singleton _ _, ?_⟩
      intro a ha b hb
      have hb1 : b = row := by simpa using hb
      subst hb1
      exact h' a ha

/-- C3 (witness): the uniqueness part of the amended theorem applied to an
insert into the empty table. -/
theorem C3_witness :
    altKeyUnique (insertAlternateUrl [] ⟨5, "https://jobs.lever.co/acme/7", "lever"⟩) :=
  C3_alternate_url_condition.2 [] ⟨5, "https://jobs.lever.co/acme/7", "lever"⟩
    List.Pairwise.nil

/-! ## C4 — remote keyword + concrete city gives hybrid -/

/-- C4: whenever the combined lowercased text contains no hybrid keyword
but does contain a remote keyword, and `locationRaw` matches a concrete
non-remote city (a city or alias of any tier other than L5),
`classifyMode` returns `hybrid`. -/
theorem C4_remote_plus_city_is_hybrid
    (mk : ModeKeywords) (tiers : List (String × Tier)) (text locationRaw : String)
    (hNoHybrid : hasKeyword mk.hybridKeywords (modeCombined text locationRaw) = false)
    (hRemote : hasKeyword mk.remoteKeywords (modeCombined text locationRaw) = true)
    (hCity : hasNonRemoteLocation tiers locationRaw = true) :
    classifyMode mk tiers text locationRaw = WorkMode.hybrid := by
  unfold classifyMode
  simp [hNoHybrid, hRemote, hCity]

/-- C4 (witness): scenario 5 of the spec — a remote-friendly posting
located in `"Toronto, ON"` classifies as hybrid. -/
theorem C4_witness :
    classifyMode ⟨["remote"], ["on-site"], ["hybrid"]⟩
      [("L1", ⟨25, ["Toronto"], ["GTA"]⟩), ("L5", ⟨15, [], ["Remote"]⟩)]
      "Great engineering team, remote friendly" "Toronto, ON" = WorkMode.hybrid :=
  C4_remote_plus_city_is_hybrid _ _ _ _ (by decide) (by decide) (by decide)

/-! ## C5 — timestamp confidence levels -/

/-- C5 (counterexample): the relative-time phrase `"3 days ago"` — which
the claim says should yield `confidence = medium` — is not a format the
JS `Date` parser accepts, so `normalizeTimestamp` returns
`{null, low}`, not `medium`. -/
theorem C5_counterexample :
    normalizeTimestamp dateParseSample torontoIsoSample (some "3 days ago") =
        ⟨none, TimestampConfidence.low⟩ ∧
      TimestampConfidence.low ≠ TimestampConfidence.medium := by
  constructor
  · rfl
  · decide

/-- C5 (amended): for every date-parser and formatter environment,
`normalizeTimestamp` returns `{null, low}` for null input and for every
input that fails to parse, `confidence = high` for every successful
parse, and never returns `medium` for any input. -/
theorem C5_normalizeTimestamp_confidence
    (parseDate : String → Option Int) (toTorontoIso : Int → String)
    (o : Option String) :
    normalizeTimestamp parseDate toTorontoIso none = ⟨none, .low⟩ ∧
      (∀ s, parseDate s = none →
        normalizeTimestamp parseDate toTorontoIso (some s) = ⟨none, .low⟩) ∧
      (∀ s t, parseDate s = some t →
        normalizeTimestamp parseDate toTorontoIso (some s) =
          ⟨some (toTorontoIso t), .high⟩) ∧
      (normalizeTimestamp parseDate toTorontoIso o).confidence ≠
        TimestampConfidence.medium := by
  refine ⟨rfl, ?_, ?_, ?_⟩
  · intro s hs
    simp [normalizeTimestamp, hs]
  · intro s t hs
    simp [normalizeTimestamp, hs]
  · cases o with
    | none => simp [normalizeTimestamp]
    | some s =>
      cases hs : parseDate s with
      | none => simp [normalizeTimestamp, hs]
      | some t => simp [normalizeTimestamp, hs]

/-- C5 (witness): the amended theorem at the sample parser, on a
successfully parsed ISO timestamp and on the unparseable relative
phrase. -/
theorem C5_witness :
    normalizeTimestamp dateParseSample torontoIsoSample
        (some "2026-02-16T12:00:00Z") =
        ⟨some "2026-02-16T07:00:00-05:00", TimestampConfidence.high⟩ ∧
      normalizeTimestamp dateParseSample torontoIsoSample (some "not a date") =
        ⟨none, TimestampConfidence.low⟩ := by
  constructor
  · have h := (C5_normalizeTimestamp_confidence dateParseSample torontoIsoSample
      none).2.2.1 "2026-02-16T12:00:00Z" 1771243200000 (by decide)
    simpa [torontoIsoSample] using h
  · exact (C5_normalizeTimestamp_confidence dateParseSample torontoIsoSample
      none).2.1 "not a date" (by decide)

/-! ## C6 — content-fingerprint pass and the 7-day repost rule -/

/-- C6: when the URL pass and the fuzzy pass both miss and the content
fingerprint matches an existing active job, `checkDuplicate` reports a
duplicate via `content_fingerprint` if the matched original was first
seen at most 7 days before `now`; if more than 7 days before, it reports
no duplicate but `isRepost = true` with `originalPostDate` equal to the
`posted_at` of the matched job, falling back to its `first_seen_at`. -/
theorem C6_fingerprint_repost_rule
    (fuzzy : CJob → DedupResult) (db : List DbJob) (now : Int) (job : CJob)
    (r : DbJob)
    (hUrl : getJobByUrlHash db job.urlHash = none)
    (hFuzzy : (fuzzy job).isDuplicate = false)
    (hFp : job.contentFingerprint ≠ "")
    (hMatch : getJobByContentFingerprint db job.contentFingerprint = some r) :
    (now - r.firstSeenAt ≤ 7 * 86400000 →
      checkDuplicate fuzzy db now job =
        { isDuplicate := true, matchMethod := some .content_fingerprint,
          existingJobId := some r.id }) ∧
    (7 * 86400000 < now - r.firstSeenAt →
      checkDuplicate fuzzy db now job =
        { isDuplicate := false, matchMethod := some .content_fingerprint,
          existingJobId := some r.id, isRepost := true,
          originalPostDate := some (r.postedAt.getD r.firstSeenAt) }) := by
  unfold checkDuplicate
  rw [hUrl]
  constructor
  · intro hle
    simp [hFuzzy, hFp, hMatch]
    rw [div_le_iff₀ (by norm_num : (0 : Rat) < 86400000)]
    exact_mod_cast hle
  · intro hgt
    simp [hFuzzy, hFp, hMatch]
    rw [lt_div_iff₀ (by norm_num : (0 : Rat) < 86400000)]
    exact_mod_cast hgt

/-- C6 (witness): with a one-row active table first seen at epoch 0 and
`now` one day later, a fingerprint-only match is a duplicate via
`content_fingerprint`. -/
theorem C6_witness :
    checkDuplicate fuzzyEmpty dbFp 86400000 jobFp =
      { isDuplicate := true, matchMethod := some MatchMethod.content_fingerprint,
        existingJobId := some fpRow.id } :=
  (C6_fingerprint_repost_rule fuzzyEmpty dbFp 86400000 jobFp fpRow
      (by decide) (by decide) (by decide) (by decide)).1 (by decide)

/-! ## C7 — low-confidence freshness cap -/

/-- C7: with `postedAtConfidence = low` the freshness score never exceeds
`lowConfidenceCap`; in particular, the concrete scenario of the spec (12 hours
old, brackets `[{24h,100},{48h,80},{null,0}]`, cap 50) scores exactly 50. -/
theorem C7_low_confidence_cap :
    (∀ (postedAt : Option Int) (firstSeenAt now : Int) (fc : FreshnessConfig),
      scoreFreshness postedAt firstSeenAt TimestampConfidence.low fc now ≤
        fc.lowConfidenceCap) ∧
    scoreFreshness (some (-43200000)) (-43200000) TimestampConfidence.low
      scenarioFreshConfig 0 = 50 := by
  constructor
  · intro postedAt firstSeenAt now fc
    simp only [scoreFreshness]
    split
    · exact le_refl _
    · next h =>
      simp only [true_and] at h
      omega
  · simp [scoreFreshness, scenarioFreshConfig, sortBrackets, insertBracket,
      bracketBefore, pickPoints]
    norm_num

/-! ## C8 — rejected titles never reach the canonical store -/

/-- C8: when normalization yields `titleBucket = reject`, the per-job step
only counts the rejection — no canonical insert, no alternate URL, no
duplicate link, no analysis enqueue and no alert enqueue happen, and the
result does not depend on the dedup engine, the scoring engine, the AI
threshold, the backfill flag or the allotted rowid (so neither dedup nor
scoring runs); consequently every canonical job the step inserts has
`titleBucket ≠ reject`. -/
theorem C8_reject_short_circuit :
    (∀ (cd cd' : CJob → DedupResult) (sj sj' : CJob → ScoreResult)
        (aiMin aiMin' : Int) (bf bf' : Bool) (nid nid' : Nat) (job : CJob),
      job.titleBucket = TitleBucket.reject →
        processJob cd sj aiMin bf nid job =
          { rejected := true, countedMaybe := false, countedDuplicate := false,
            altUrlInserted := none, inserted := none, dupLinkInserted := none,
            queuedForAnalysis := false, queuedForAlert := false } ∧
        processJob cd sj aiMin bf nid job = processJob cd' sj' aiMin' bf' nid' job) ∧
    ∀ (cd : CJob → DedupResult) (sj : CJob → ScoreResult) (aiMin : Int)
      (bf : Bool) (nid : Nat) (job c : CJob),
      (processJob cd sj aiMin bf nid job).inserted = some c →
        c.titleBucket ≠ TitleBucket.reject := by
  constructor
  · intro cd cd' sj sj' aiMin aiMin' bf bf' nid nid' job hrej
    constructor
    · simp [processJob, hrej]
    · simp [processJob, hrej]
  · intro cd sj aiMin bf nid job c h hcrej
    by_cases hrej : job.titleBucket = TitleBucket.reject
    · simp [processJob, hrej] at h
    · simp only [processJob] at h
      rw [if_neg hrej] at h
      split at h
      · simp at h
      · simp only [Option.some.injEq] at h
        apply hrej
        rw [← h] at hcrej
        simpa [apply_ite CJob.titleBucket] using hcrej

/-- C8 (witness): the theorem applied to a concrete rejected job — the
step records only the rejection. -/
theorem C8_witness :
    processJob (checkDuplicate fuzzyEmpty dbOne 0) scoreZero 50 false 7 rejectJob =
      { rejected := true, countedMaybe := false, countedDuplicate := false,
        altUrlInserted := none, inserted := none, dupLinkInserted := none,
        queuedForAnalysis := false, queuedForAlert := false } :=
  ((C8_reject_short_circuit.1 (checkDuplicate fuzzyEmpty dbOne 0)
      (checkDuplicate fuzzyEmpty dbOne 0) scoreZero scoreZero 50 50 false false 7 7
      rejectJob) rfl).1

/-! ## C9 — single-flight pipeline lock -/

/-- C9: a tick that fires while `_pipelineRunning` is set does not start a
second pipeline invocation — it returns `null` with a warning, skipping
(not queueing) the tick — and when a run does start, the lock is clear
again after the call whether the run resolved or threw. -/
theorem C9_single_flight {R E : Type} (p : RunOutcome R E) :
    ((runPipelineGuarded true p).started = false ∧
      (runPipelineGuarded true p).outcome = Except.ok none ∧
      (runPipelineGuarded true p).warned = true ∧
      (runPipelineGuarded true p).lockAfter = true) ∧
    ((runPipelineGuarded false p).started = true ∧
      (runPipelineGuarded false p).lockAfter = false) := by
  cases p <;> simp [runPipelineGuarded]

/-! ## C10 — URL pass matches any status, fingerprint pass only active -/

/-- C10: `getJobByUrlHash` has no status filter while
`getJobByContentFingerprint` restricts to `status = "active"`: a job
whose URL hash collides with an **archived** job is reported a duplicate
(method `url_hash`) and not inserted, while the same posting under a
fresh URL, matching that archived job only by content fingerprint, is not
a duplicate and is inserted. -/
theorem C10_url_any_status_fingerprint_active_only :
    (checkDuplicate fuzzyEmpty dbArch 0 jobSameUrl).isDuplicate = true ∧
    (checkDuplicate fuzzyEmpty dbArch 0 jobSameUrl).matchMethod =
      some MatchMethod.url_hash ∧
    (processJob (checkDuplicate fuzzyEmpty dbArch 0) scoreZero 50 false 2
        jobSameUrl).inserted = none ∧
    archivedRow.status ≠ JobStatus.active ∧
    (checkDuplicate fuzzyEmpty dbArch 0 jobSameFp).isDuplicate = false ∧
    (processJob (checkDuplicate fuzzyEmpty dbArch 0) scoreZero 50 false 2
        jobSameFp).inserted ≠ none := by
  refine ⟨rfl, rfl, rfl, by decide, rfl, ?_⟩
  intro h
  simp [processJob, checkDuplicate, getJobByUrlHash, getJobByContentFingerprint,
    fuzzyEmpty, noDup, dbArch, archivedRow, jobSameFp, scoreZero, jsTruthyId] at h
